import Mathlib

/-
Verification of the control-plane logic of the GMAX4002 V4L2 sensor driver
(src/gmax4002.c), as a shallow embedding.

The control bus (CCI / regmap), runtime-PM reference counting, the V4L2
control framework and the power collaborators (regulators, clock, reset
line) are external interfaces of the driver; they are embedded at their
documented interface contracts.  Bus failures are injected through an
oracle assigning a result code to every bus transaction attempt, counted
in order.  All integer error codes follow the kernel convention: 0 is
success, negative values are errno codes.
-/

set_option maxRecDepth 100000

/-- A register write: address and value (CCI_REG8 registers in this driver). -/
structure RegWrite where
  addr : Nat
  val : Nat
deriving DecidableEq, Repr

/-- State of the control bus: the register file, the number of bus
transaction attempts made so far, and the ordered trace of successful
writes. -/
structure Bus where
  regs : Nat → Nat
  attempts : Nat
  trace : List RegWrite

/-- Fresh bus with all registers zero and no transactions. -/
def initBus : Bus := { regs := fun _ => 0, attempts := 0, trace := [] }

/-- One bus write attempt.  The oracle decides the outcome of the attempt
(indexed by the attempt counter); on success the register file is updated
and the write is appended to the trace, on failure nothing but the attempt
counter changes. -/
def busWrite (res : Nat → Int) (b : Bus) (w : RegWrite) : Bus × Int :=
  let r := res b.attempts
  if r = 0 then
    ({ regs := fun a => if a = w.addr then w.val else b.regs a,
       attempts := b.attempts + 1,
       trace := b.trace ++ [w] }, 0)
  else
    ({ b with attempts := b.attempts + 1 }, r)

/-- One bus read attempt: returns the updated bus, the result code, and the
value read. -/
def busRead (res : Nat → Int) (b : Bus) (addr : Nat) : Bus × Int × Nat :=
  ({ b with attempts := b.attempts + 1 }, res b.attempts, b.regs addr)

/-- Modelled from the CCI interface contract: cci_write with an error
pointer is skipped entirely when a previous chained operation already
failed, and otherwise records its own failure. -/
def cciWriteErr (res : Nat → Int) (b : Bus) (addr v : Nat) (err : Int) : Bus × Int :=
  if err ≠ 0 then (b, err) else busWrite res b ⟨addr, v⟩

/-- Modelled from the spec: update_bits(address, mask, value) is a
read-modify-write — it reads the current register value, replaces the
masked bits, and writes back (8-bit registers here).  With an error
pointer it is skipped when a previous chained operation already failed. -/
def cciUpdateBitsErr (res : Nat → Int) (b : Bus) (addr mask v : Nat) (err : Int) : Bus × Int :=
  if err ≠ 0 then (b, err)
  else
    let rd := busRead res b addr
    if rd.2.1 ≠ 0 then (rd.1, rd.2.1)
    else busWrite res rd.1 ⟨addr, Nat.lor (Nat.land rd.2.2 (Nat.xor 0xFF mask)) (Nat.land v mask)⟩

/-- Modelled from the CCI interface contract: cci_multi_reg_write applies
each register write in order and aborts on the first failing write,
returning its error; already-applied writes are not rolled back. -/
def cci_multi_reg_write (res : Nat → Int) (b : Bus) : List RegWrite → Bus × Int
  | [] => (b, 0)
  | w :: ws =>
    let p := busWrite res b w
    if p.2 ≠ 0 then p else cci_multi_reg_write res p.1 ws


/-- Slice 0 of the common register table (split for elaboration speed). -/
def mode_common_regs_0 : List RegWrite := [
  ⟨0x2E00, 0x00⟩,
  ⟨0x2E01, 0x01⟩,
  ⟨0x2E02, 0x00⟩,
  ⟨0x2E03, 0x06⟩,
  ⟨0x2E04, 0x00⟩,
  ⟨0x2E05, 0x08⟩,
  ⟨0x2E06, 0x02⟩,
  ⟨0x2E07, 0x00⟩,
  ⟨0x2E08, 0x00⟩,
  ⟨0x2E09, 0x00⟩,
  ⟨0x2E0A, 0x00⟩,
  ⟨0x2E0B, 0x01⟩,
  ⟨0x2E0C, 0x00⟩,
  ⟨0x2E0D, 0xBE⟩,
  ⟨0x2E0E, 0x04⟩,
  ⟨0x2E0F, 0x01⟩,
  ⟨0x2E10, 0x00⟩,
  ⟨0x2E11, 0x12⟩,
  ⟨0x2E12, 0x00⟩,
  ⟨0x2E13, 0x00⟩,
  ⟨0x2E14, 0xBA⟩,
  ⟨0x2E15, 0x04⟩,
  ⟨0x2E16, 0x00⟩,
  ⟨0x2E17, 0x00⟩,
  ⟨0x2E18, 0x08⟩,
  ⟨0x2E19, 0x00⟩,
  ⟨0x2E1A, 0xB0⟩,
  ⟨0x2E1B, 0x04⟩,
  ⟨0x2E1C, 0x00⟩,
  ⟨0x2E1D, 0x00⟩,
  ⟨0x2E1E, 0x00⟩,
  ⟨0x2E1F, 0x00⟩,
  ⟨0x2E20, 0x00⟩,
  ⟨0x2E21, 0x00⟩,
  ⟨0x2E22, 0x00⟩,
  ⟨0x2E23, 0x00⟩,
  ⟨0x2E24, 0x00⟩,
  ⟨0x2E25, 0x00⟩,
  ⟨0x2E26, 0x00⟩,
  ⟨0x2E27, 0x00⟩,
  ⟨0x2E28, 0x00⟩,
  ⟨0x2E29, 0x00⟩,
  ⟨0x2E2A, 0x00⟩,
  ⟨0x2E2B, 0x00⟩,
  ⟨0x2E2C, 0x00⟩,
  ⟨0x2E2D, 0x00⟩,
  ⟨0x2E2E, 0x00⟩]

/-- Slice 1 of the common register table (split for elaboration speed). -/
def mode_common_regs_1 : List RegWrite := [
  ⟨0x2E2F, 0x00⟩,
  ⟨0x2E30, 0x00⟩,
  ⟨0x2E31, 0x00⟩,
  ⟨0x2E32, 0x00⟩,
  ⟨0x2E33, 0x00⟩,
  ⟨0x2E34, 0x00⟩,
  ⟨0x2E35, 0x00⟩,
  ⟨0x2E36, 0x00⟩,
  ⟨0x2E37, 0x00⟩,
  ⟨0x2E38, 0x00⟩,
  ⟨0x2E39, 0x00⟩,
  ⟨0x2E3A, 0x00⟩,
  ⟨0x2E3B, 0x00⟩,
  ⟨0x2E3C, 0x00⟩,
  ⟨0x2E3D, 0x00⟩,
  ⟨0x2E3E, 0x00⟩,
  ⟨0x2E3F, 0x00⟩,
  ⟨0x2E40, 0x00⟩,
  ⟨0x2E41, 0x00⟩,
  ⟨0x2E42, 0x00⟩,
  ⟨0x2E43, 0x00⟩,
  ⟨0x2E44, 0x00⟩,
  ⟨0x2E45, 0x00⟩,
  ⟨0x2E46, 0x00⟩,
  ⟨0x2E47, 0x00⟩,
  ⟨0x2E48, 0x00⟩,
  ⟨0x2E49, 0x00⟩,
  ⟨0x2E4A, 0x00⟩,
  ⟨0x2E4B, 0x00⟩,
  ⟨0x2E4C, 0x00⟩,
  ⟨0x2E4D, 0x00⟩,
  ⟨0x2E4E, 0x00⟩,
  ⟨0x2E4F, 0x00⟩,
  ⟨0x2E50, 0x00⟩,
  ⟨0x2E51, 0x00⟩,
  ⟨0x2E52, 0x00⟩,
  ⟨0x2E53, 0x00⟩,
  ⟨0x2E54, 0x00⟩,
  ⟨0x2E55, 0x00⟩,
  ⟨0x2E56, 0x00⟩,
  ⟨0x2E57, 0x00⟩,
  ⟨0x2E58, 0x01⟩,
  ⟨0x2E59, 0x14⟩,
  ⟨0x2E5A, 0x00⟩,
  ⟨0x2E5B, 0x00⟩,
  ⟨0x2E5C, 0x04⟩,
  ⟨0x2E5D, 0x22⟩]

/-- Slice 2 of the common register table (split for elaboration speed). -/
def mode_common_regs_2 : List RegWrite := [
  ⟨0x2E5E, 0x01⟩,
  ⟨0x2E5F, 0x02⟩,
  ⟨0x2E60, 0x02⟩,
  ⟨0x2E61, 0x02⟩,
  ⟨0x2E62, 0x06⟩,
  ⟨0x2E63, 0x28⟩,
  ⟨0x2E64, 0x01⟩,
  ⟨0x2E65, 0x00⟩,
  ⟨0x2E66, 0x02⟩,
  ⟨0x2E67, 0x00⟩,
  ⟨0x2E68, 0x24⟩,
  ⟨0x2E69, 0x05⟩,
  ⟨0x2E6A, 0x62⟩,
  ⟨0x2E6B, 0x03⟩,
  ⟨0x2E6C, 0x46⟩,
  ⟨0x2E6D, 0x78⟩,
  ⟨0x2E6E, 0x02⟩,
  ⟨0x2E6F, 0x2A⟩,
  ⟨0x2E70, 0xFF⟩,
  ⟨0x2E71, 0xFF⟩,
  ⟨0x2E72, 0xFF⟩,
  ⟨0x2E73, 0xFF⟩,
  ⟨0x2E74, 0x32⟩,
  ⟨0x2E75, 0x64⟩,
  ⟨0x2E76, 0x14⟩,
  ⟨0x2E77, 0xFF⟩,
  ⟨0x2E78, 0xFF⟩,
  ⟨0x2E79, 0xFF⟩,
  ⟨0x2E7A, 0x01⟩,
  ⟨0x2E7B, 0x87⟩,
  ⟨0x2E7C, 0xFF⟩,
  ⟨0x2E7D, 0xFF⟩,
  ⟨0x2E7E, 0x01⟩,
  ⟨0x2E7F, 0x88⟩,
  ⟨0x2E80, 0x05⟩,
  ⟨0x2E81, 0x24⟩,
  ⟨0x2E82, 0xFF⟩,
  ⟨0x2E83, 0xFF⟩,
  ⟨0x2E84, 0x05⟩,
  ⟨0x2E85, 0x31⟩,
  ⟨0x2E86, 0x5C⟩,
  ⟨0x2E87, 0x84⟩,
  ⟨0x2E88, 0x03⟩,
  ⟨0x2E89, 0x0C⟩,
  ⟨0x2E8A, 0x13⟩,
  ⟨0x2E8B, 0x34⟩,
  ⟨0x2E8C, 0xFF⟩]

/-- Slice 3 of the common register table (split for elaboration speed). -/
def mode_common_regs_3 : List RegWrite := [
  ⟨0x2E8D, 0xFF⟩,
  ⟨0x2E8E, 0xFF⟩,
  ⟨0x2E8F, 0xFF⟩,
  ⟨0x2E90, 0xFF⟩,
  ⟨0x2E91, 0xFF⟩,
  ⟨0x2E92, 0xFF⟩,
  ⟨0x2E93, 0xFF⟩,
  ⟨0x2E94, 0x04⟩,
  ⟨0x2E95, 0x0C⟩,
  ⟨0x2E96, 0x14⟩,
  ⟨0x2E97, 0x34⟩,
  ⟨0x2E98, 0x01⟩,
  ⟨0x2E99, 0x02⟩,
  ⟨0x2E9A, 0x11⟩,
  ⟨0x2E9B, 0x12⟩,
  ⟨0x2E9C, 0x04⟩,
  ⟨0x2E9D, 0x0C⟩,
  ⟨0x2E9E, 0x14⟩,
  ⟨0x2E9F, 0x34⟩,
  ⟨0x2EA0, 0x0B⟩,
  ⟨0x2EA1, 0x0C⟩,
  ⟨0x2EA2, 0x33⟩,
  ⟨0x2EA3, 0x34⟩,
  ⟨0x2EA4, 0x0C⟩,
  ⟨0x2EA5, 0x14⟩,
  ⟨0x2EA6, 0x10⟩,
  ⟨0x2EA7, 0xFF⟩,
  ⟨0x2EA8, 0x01⟩,
  ⟨0x2EA9, 0x02⟩,
  ⟨0x2EAA, 0x11⟩,
  ⟨0x2EAB, 0x12⟩,
  ⟨0x2EAC, 0x01⟩,
  ⟨0x2EAD, 0x02⟩,
  ⟨0x2EAE, 0xFF⟩,
  ⟨0x2EAF, 0xFF⟩,
  ⟨0x2EB0, 0xFF⟩,
  ⟨0x2EB1, 0xFF⟩,
  ⟨0x2EB2, 0xFF⟩,
  ⟨0x2EB3, 0xFF⟩,
  ⟨0x2EB4, 0xFF⟩,
  ⟨0x2EB5, 0xFF⟩,
  ⟨0x2EB6, 0x2E⟩,
  ⟨0x2EB7, 0x1C⟩,
  ⟨0x2EB8, 0x1E⟩,
  ⟨0x2EB9, 0x0C⟩,
  ⟨0x2EBA, 0x03⟩,
  ⟨0x2EBB, 0x00⟩]

/-- Slice 4 of the common register table (split for elaboration speed). -/
def mode_common_regs_4 : List RegWrite := [
  ⟨0x2EBC, 0x01⟩,
  ⟨0x2EBD, 0x00⟩,
  ⟨0x2EBE, 0x01⟩,
  ⟨0x2EBF, 0x03⟩,
  ⟨0x2EC0, 0x01⟩,
  ⟨0x2EC1, 0x01⟩,
  ⟨0x2EC2, 0x00⟩,
  ⟨0x2EC3, 0x01⟩,
  ⟨0x2EC4, 0x1E⟩,
  ⟨0x2EC5, 0x0C⟩,
  ⟨0x2EC6, 0x00⟩,
  ⟨0x2EC7, 0x00⟩,
  ⟨0x2EC8, 0x01⟩,
  ⟨0x2EC9, 0x01⟩,
  ⟨0x2ECA, 0x03⟩,
  ⟨0x2ECB, 0x01⟩,
  ⟨0x3000, 0x01⟩,
  ⟨0x3001, 0x02⟩,
  ⟨0x3002, 0x00⟩,
  ⟨0x3003, 0x00⟩,
  ⟨0x3004, 0x03⟩,
  ⟨0x3005, 0x00⟩,
  ⟨0x3006, 0x08⟩,
  ⟨0x3007, 0x10⟩,
  ⟨0x3008, 0x00⟩,
  ⟨0x3009, 0x04⟩,
  ⟨0x300A, 0x01⟩,
  ⟨0x300B, 0x00⟩,
  ⟨0x300C, 0x01⟩,
  ⟨0x300D, 0x0F⟩,
  ⟨0x300E, 0x00⟩,
  ⟨0x300F, 0x01⟩,
  ⟨0x3010, 0x01⟩,
  ⟨0x3011, 0x01⟩,
  ⟨0x3012, 0x00⟩,
  ⟨0x3013, 0x00⟩,
  ⟨0x3014, 0x8E⟩,
  ⟨0x3015, 0x09⟩,
  ⟨0x3016, 0x04⟩,
  ⟨0x3017, 0x00⟩,
  ⟨0x3018, 0x08⟩,
  ⟨0x3019, 0x07⟩,
  ⟨0x301A, 0x10⟩,
  ⟨0x301B, 0x07⟩,
  ⟨0x301C, 0x27⟩,
  ⟨0x301D, 0x00⟩,
  ⟨0x301E, 0x0B⟩]

/-- Slice 5 of the common register table (split for elaboration speed). -/
def mode_common_regs_5 : List RegWrite := [
  ⟨0x301F, 0x09⟩,
  ⟨0x3020, 0x05⟩,
  ⟨0x3021, 0x06⟩,
  ⟨0x3022, 0x96⟩,
  ⟨0x3023, 0xF8⟩,
  ⟨0x3024, 0x14⟩,
  ⟨0x3025, 0x00⟩,
  ⟨0x3026, 0x00⟩,
  ⟨0x3027, 0x00⟩,
  ⟨0x3028, 0x00⟩,
  ⟨0x3029, 0x00⟩,
  ⟨0x302A, 0x04⟩,
  ⟨0x302B, 0x04⟩,
  ⟨0x302C, 0x04⟩,
  ⟨0x302D, 0x04⟩,
  ⟨0x302E, 0x00⟩,
  ⟨0x302F, 0x00⟩,
  ⟨0x3030, 0x00⟩,
  ⟨0x3031, 0x00⟩,
  ⟨0x3039, 0x00⟩,
  ⟨0x303A, 0x00⟩,
  ⟨0x303B, 0x00⟩,
  ⟨0x303C, 0x00⟩,
  ⟨0x303D, 0x01⟩,
  ⟨0x303E, 0x00⟩,
  ⟨0x303F, 0x00⟩,
  ⟨0x3040, 0x10⟩,
  ⟨0x3041, 0x00⟩,
  ⟨0x3042, 0x10⟩,
  ⟨0x3043, 0x00⟩,
  ⟨0x3044, 0x19⟩,
  ⟨0x3045, 0x10⟩,
  ⟨0x3046, 0x00⟩,
  ⟨0x3047, 0x00⟩,
  ⟨0x3048, 0x00⟩,
  ⟨0x3049, 0x00⟩,
  ⟨0x304A, 0x00⟩,
  ⟨0x304B, 0x00⟩,
  ⟨0x304C, 0x00⟩,
  ⟨0x304D, 0x00⟩,
  ⟨0x304E, 0x00⟩,
  ⟨0x304F, 0x02⟩,
  ⟨0x3050, 0x0A⟩,
  ⟨0x3051, 0x02⟩,
  ⟨0x3052, 0x00⟩,
  ⟨0x3053, 0x10⟩,
  ⟨0x3054, 0x00⟩]

/-- Slice 6 of the common register table (split for elaboration speed). -/
def mode_common_regs_6 : List RegWrite := [
  ⟨0x3055, 0x00⟩,
  ⟨0x3056, 0x5E⟩,
  ⟨0x3057, 0x01⟩,
  ⟨0x3058, 0x00⟩,
  ⟨0x3059, 0x01⟩,
  ⟨0x305A, 0x00⟩,
  ⟨0x305B, 0x10⟩,
  ⟨0x305C, 0x00⟩,
  ⟨0x305D, 0x04⟩,
  ⟨0x305E, 0x00⟩,
  ⟨0x305F, 0x00⟩,
  ⟨0x3060, 0x00⟩,
  ⟨0x3200, 0x20⟩,
  ⟨0x3201, 0x00⟩,
  ⟨0x3202, 0x04⟩,
  ⟨0x3203, 0x03⟩,
  ⟨0x3204, 0x20⟩,
  ⟨0x3205, 0x03⟩,
  ⟨0x3206, 0x03⟩,
  ⟨0x3207, 0x03⟩,
  ⟨0x3208, 0x16⟩,
  ⟨0x3209, 0x04⟩,
  ⟨0x320A, 0x00⟩,
  ⟨0x320B, 0x16⟩,
  ⟨0x320C, 0x04⟩,
  ⟨0x320D, 0x1A⟩,
  ⟨0x320E, 0x0F⟩,
  ⟨0x320F, 0x00⟩,
  ⟨0x3210, 0x11⟩,
  ⟨0x3211, 0x07⟩,
  ⟨0x3212, 0x00⟩,
  ⟨0x3213, 0x0E⟩,
  ⟨0x3214, 0x1B⟩,
  ⟨0x3215, 0x03⟩,
  ⟨0x3216, 0x3F⟩,
  ⟨0x3217, 0x04⟩,
  ⟨0x3218, 0x07⟩,
  ⟨0x3219, 0x00⟩,
  ⟨0x321A, 0x3F⟩,
  ⟨0x321B, 0x07⟩,
  ⟨0x321C, 0x00⟩,
  ⟨0x321D, 0x04⟩,
  ⟨0x321E, 0x3F⟩,
  ⟨0x321F, 0x04⟩,
  ⟨0x3220, 0x07⟩,
  ⟨0x3221, 0x00⟩,
  ⟨0x3222, 0x14⟩]

/-- Slice 7 of the common register table (split for elaboration speed). -/
def mode_common_regs_7 : List RegWrite := [
  ⟨0x3223, 0x03⟩,
  ⟨0x3224, 0x00⟩,
  ⟨0x3225, 0x00⟩,
  ⟨0x3226, 0x3F⟩,
  ⟨0x3227, 0x03⟩,
  ⟨0x3228, 0x00⟩,
  ⟨0x3229, 0x00⟩,
  ⟨0x322A, 0x06⟩,
  ⟨0x322B, 0x03⟩,
  ⟨0x322C, 0x1B⟩,
  ⟨0x322D, 0x00⟩,
  ⟨0x322E, 0x07⟩,
  ⟨0x322F, 0x03⟩,
  ⟨0x3230, 0x0E⟩,
  ⟨0x3231, 0x41⟩,
  ⟨0x3232, 0x53⟩,
  ⟨0x3233, 0x4E⟩,
  ⟨0x3234, 0x47⟩,
  ⟨0x3235, 0x47⟩,
  ⟨0x3236, 0x47⟩,
  ⟨0x3237, 0x47⟩,
  ⟨0x3238, 0x50⟩,
  ⟨0x3239, 0x47⟩,
  ⟨0x323A, 0x53⟩,
  ⟨0x323B, 0x53⟩,
  ⟨0x323C, 0x4A⟩,
  ⟨0x323D, 0x4A⟩,
  ⟨0x323E, 0x68⟩,
  ⟨0x323F, 0x0A⟩,
  ⟨0x3240, 0x00⟩,
  ⟨0x3241, 0x1A⟩,
  ⟨0x3242, 0x20⟩,
  ⟨0x3243, 0x04⟩,
  ⟨0x3244, 0x13⟩,
  ⟨0x3245, 0x13⟩,
  ⟨0x3246, 0x30⟩,
  ⟨0x3247, 0x30⟩,
  ⟨0x3248, 0x7D⟩,
  ⟨0x3249, 0x1C⟩,
  ⟨0x324A, 0x1E⟩,
  ⟨0x324B, 0x00⟩,
  ⟨0x324C, 0x00⟩,
  ⟨0x324D, 0x00⟩,
  ⟨0x324E, 0x00⟩,
  ⟨0x3300, 0x00⟩,
  ⟨0x3301, 0x00⟩,
  ⟨0x3302, 0x00⟩]

/-- Slice 8 of the common register table (split for elaboration speed). -/
def mode_common_regs_8 : List RegWrite := [
  ⟨0x3303, 0x00⟩,
  ⟨0x3304, 0x00⟩,
  ⟨0x3305, 0x00⟩,
  ⟨0x3306, 0x00⟩,
  ⟨0x3307, 0x01⟩,
  ⟨0x3308, 0x00⟩,
  ⟨0x3311, 0xD0⟩,
  ⟨0x3312, 0x07⟩,
  ⟨0x3313, 0xB8⟩,
  ⟨0x3314, 0x0B⟩,
  ⟨0x3315, 0xF4⟩,
  ⟨0x3316, 0x01⟩,
  ⟨0x3317, 0xE8⟩,
  ⟨0x3318, 0x03⟩,
  ⟨0x3319, 0xE8⟩,
  ⟨0x331A, 0x03⟩,
  ⟨0x331B, 0xE8⟩,
  ⟨0x331C, 0x03⟩,
  ⟨0x331D, 0xA0⟩,
  ⟨0x331E, 0x0F⟩,
  ⟨0x331F, 0xD0⟩,
  ⟨0x3320, 0x07⟩,
  ⟨0x3321, 0x01⟩,
  ⟨0x3322, 0x00⟩,
  ⟨0x3323, 0x01⟩,
  ⟨0x3324, 0x00⟩,
  ⟨0x3325, 0x01⟩,
  ⟨0x3326, 0x00⟩,
  ⟨0x3327, 0x01⟩,
  ⟨0x3328, 0x00⟩,
  ⟨0x3329, 0x01⟩,
  ⟨0x332A, 0x00⟩,
  ⟨0x332B, 0x01⟩,
  ⟨0x332C, 0x00⟩,
  ⟨0x332D, 0xA0⟩,
  ⟨0x332E, 0x0F⟩,
  ⟨0x332F, 0xE8⟩,
  ⟨0x3330, 0x03⟩,
  ⟨0x3331, 0xD0⟩,
  ⟨0x3332, 0x07⟩,
  ⟨0x3333, 0x03⟩,
  ⟨0x3334, 0x00⟩,
  ⟨0x3335, 0xA0⟩,
  ⟨0x3336, 0x0F⟩,
  ⟨0x3337, 0xD0⟩,
  ⟨0x3338, 0x07⟩,
  ⟨0x3339, 0xF4⟩]

/-- Slice 9 of the common register table (split for elaboration speed). -/
def mode_common_regs_9 : List RegWrite := [
  ⟨0x333A, 0x01⟩,
  ⟨0x333B, 0x3C⟩,
  ⟨0x333C, 0x00⟩,
  ⟨0x333D, 0xB8⟩,
  ⟨0x333E, 0x0B⟩,
  ⟨0x333F, 0xE8⟩,
  ⟨0x3340, 0x03⟩,
  ⟨0x3341, 0xE8⟩,
  ⟨0x3342, 0x03⟩,
  ⟨0x3343, 0xE8⟩,
  ⟨0x3344, 0x03⟩,
  ⟨0x3345, 0x55⟩,
  ⟨0x3346, 0x55⟩,
  ⟨0x3347, 0x55⟩,
  ⟨0x3348, 0x55⟩,
  ⟨0x3349, 0x55⟩,
  ⟨0x334A, 0x55⟩,
  ⟨0x334B, 0x55⟩,
  ⟨0x334C, 0x55⟩,
  ⟨0x334D, 0x10⟩,
  ⟨0x334E, 0x32⟩,
  ⟨0x334F, 0x54⟩,
  ⟨0x3350, 0x9A⟩,
  ⟨0x3351, 0xCD⟩,
  ⟨0x3352, 0x7B⟩,
  ⟨0x3353, 0xE8⟩,
  ⟨0x3354, 0x6F⟩,
  ⟨0x3355, 0x10⟩,
  ⟨0x3356, 0x42⟩,
  ⟨0x3357, 0x95⟩,
  ⟨0x3358, 0xEA⟩,
  ⟨0x3359, 0xCD⟩,
  ⟨0x335A, 0x3B⟩,
  ⟨0x335B, 0x87⟩,
  ⟨0x335C, 0x6E⟩,
  ⟨0x335D, 0x00⟩,
  ⟨0x335E, 0x00⟩,
  ⟨0x335F, 0x00⟩,
  ⟨0x3360, 0x00⟩,
  ⟨0x3361, 0x01⟩,
  ⟨0x3362, 0x00⟩,
  ⟨0x3400, 0x00⟩,
  ⟨0x3401, 0x12⟩,
  ⟨0x3402, 0x00⟩,
  ⟨0x3403, 0x00⟩,
  ⟨0x3404, 0x64⟩,
  ⟨0x3405, 0x02⟩]

/-- The common register table mode_common_regs of src/gmax4002.c, in source order. -/
def mode_common_regs : List RegWrite :=
  mode_common_regs_0 ++ mode_common_regs_1 ++ mode_common_regs_2 ++ mode_common_regs_3 ++ mode_common_regs_4 ++ mode_common_regs_5 ++ mode_common_regs_6 ++ mode_common_regs_7 ++ mode_common_regs_8 ++ mode_common_regs_9

/-- The format allow-list codes of src/gmax4002.c, in source order:
MEDIA_BUS_FMT_SRGGB10_1X10, SGRBG10_1X10, SGBRG10_1X10, SBGGR10_1X10
(numeric values from the kernel media-bus-format interface). -/
def codes : List Nat := [0x300f, 0x300a, 0x300e, 0x3007]

/-- Embedding of gmax4002_get_format_code: scan the allow-list in order and
return the matching entry, or the first entry when no entry matches. -/
def gmax4002_get_format_code (code : Nat) : Nat :=
  match codes.find? (fun c => c = code) with
  | some c => c
  | none => codes.headD 0

/-- Embedding of gmax4002_enum_mbus_code: the entry count is the code-table
size divided by 4; an index at or past it is rejected (none stands for
-EINVAL), otherwise the code at four times the index is resolved through
gmax4002_get_format_code. -/
def gmax4002_enum_mbus_code (index : Nat) : Option Nat :=
  let entries := codes.length / 4
  if index ≥ entries then none
  else some (gmax4002_get_format_code (codes.getD (index * 4) 0))

/-- V4L2 control id constants (numeric values from the kernel interface). -/
def V4L2_CID_BRIGHTNESS : Nat := 0x00980900

def V4L2_CID_EXPOSURE : Nat := 0x00980911

def V4L2_CID_HFLIP : Nat := 0x00980914

def V4L2_CID_VFLIP : Nat := 0x00980915

def V4L2_CID_VBLANK : Nat := 0x009e0901

def V4L2_CID_HBLANK : Nat := 0x009e0902

def V4L2_CID_ANALOGUE_GAIN : Nat := 0x009e0903

/-- Register addresses used by the control dispatcher. -/
def GMAX4002_REG_ANALOG_GAIN : Nat := 0x2EC9

def GMAX4002_REG_FLIP_H : Nat := 0x3002

def GMAX4002_REG_FLIP_V : Nat := 0x2E05

/-- Embedding of gmax4002_set_ctrl.  The powered flag is the result of the
pm_runtime_get_if_active gate: when false the function returns 0 without
touching the bus.  The source switch has no break in the V4L2_CID_EXPOSURE
case, so it falls through into the V4L2_CID_ANALOGUE_GAIN branch; the
embedding reproduces that fallthrough. -/
def gmax4002_set_ctrl (res : Nat → Int) (powered : Bool) (b : Bus)
    (id : Nat) (v : Nat) : Bus × Int :=
  if powered = false then (b, 0)
  else if id = V4L2_CID_EXPOSURE ∨ id = V4L2_CID_ANALOGUE_GAIN then
    busWrite res b ⟨GMAX4002_REG_ANALOG_GAIN, v⟩
  else if id = V4L2_CID_VBLANK then (b, 0)
  else if id = V4L2_CID_HBLANK then (b, 0)
  else if id = V4L2_CID_VFLIP then
    busWrite res b ⟨GMAX4002_REG_FLIP_V, v⟩
  else if id = V4L2_CID_HFLIP then
    busWrite res b ⟨GMAX4002_REG_FLIP_H, v⟩
  else if id = V4L2_CID_BRIGHTNESS then (b, 0)
  else (b, 0)

/-- Runtime state of one driver session: the bus, the runtime-PM usage
count, and the per-flip grab (lock) flags maintained by __v4l2_ctrl_grab. -/
structure DriverState where
  bus : Bus
  pmUsage : Nat
  vflipGrabbed : Bool
  hflipGrabbed : Bool

/-- Modelled from the spec: the control framework rejects a write to a
grabbed (locked) control with a Locked error (-EBUSY = -16) before the
driver op is ever invoked; otherwise the driver s_ctrl runs. -/
def set_control (res : Nat → Int) (st : DriverState) (powered : Bool)
    (id : Nat) (v : Nat) : DriverState × Int :=
  if (id = V4L2_CID_VFLIP ∧ st.vflipGrabbed) ∨ (id = V4L2_CID_HFLIP ∧ st.hflipGrabbed) then
    (st, -16)
  else
    let p := gmax4002_set_ctrl res powered st.bus id v
    ({ st with bus := p.1 }, p.2)

/-- Embedding of gmax4002_enable_streams.  pmGetRes is the result of
pm_runtime_get_sync (negative on failure; the usage count is bumped and
dropped again via pm_runtime_put_noidle on that path, leaving it
unchanged).  setup stands for the external __v4l2_ctrl_handler_setup call
that re-applies the stored controls.  As in the source, the error code
accumulated across the cci_update_bits and cci_write chain is overwritten
by the setup result without being checked. -/
def gmax4002_enable_streams (res : Nat → Int) (pmGetRes : Int)
    (setup : Bus → Bus × Int) (st : DriverState) : DriverState × Int :=
  if pmGetRes < 0 then
    (st, pmGetRes)
  else
    let st1 : DriverState := { st with pmUsage := st.pmUsage + 1 }
    let p := cci_multi_reg_write res st1.bus mode_common_regs
    if p.2 ≠ 0 then
      ({ st1 with bus := p.1, pmUsage := st1.pmUsage - 1 }, p.2)
    else
      let q1 := cciUpdateBitsErr res p.1 0x2E00 0x01 0x01 0
      let q2 := cciWriteErr res q1.1 0x3301 0x01 q1.2
      let q3 := cciUpdateBitsErr res q2.1 0x3024 0x20 0x00 q2.2
      let q4 := cciUpdateBitsErr res q3.1 0x3023 0xF0 0xF0 q3.2
      let q5 := cciUpdateBitsErr res q4.1 0x3023 0x01 0x01 q4.2
      let q6 := cciUpdateBitsErr res q5.1 0x3023 0x06 0x06 q5.2
      let q7 := cciUpdateBitsErr res q6.1 0x3024 0x20 0x20 q6.2
      let q8 := cciUpdateBitsErr res q7.1 0x3023 0x04 0x00 q7.2
      let q9 := cciUpdateBitsErr res q8.1 0x2E00 0x02 0x02 q8.2
      let s := setup q9.1
      if s.2 ≠ 0 then
        ({ st1 with bus := s.1, pmUsage := st1.pmUsage - 1 }, s.2)
      else
        ({ st1 with bus := s.1, vflipGrabbed := true, hflipGrabbed := true }, 0)

/-- Embedding of gmax4002_disable_streams: ungrab both flips and drop the
runtime-PM usage count.  The source returns its local ret without ever
assigning it (an uninitialized read); that indeterminate value is taken as
the parameter retUninit. -/
def gmax4002_disable_streams (retUninit : Int) (st : DriverState) : DriverState × Int :=
  ({ st with vflipGrabbed := false, hflipGrabbed := false,
             pmUsage := st.pmUsage - 1 }, retUninit)

/-- A selection rectangle. -/
structure Rect where
  left : Nat
  top : Nat
  width : Nat
  height : Nat
deriving DecidableEq, Repr

/-- V4L2 selection target constants (numeric values from the kernel
interface). -/
def V4L2_SEL_TGT_CROP : Nat := 0x0000

def V4L2_SEL_TGT_CROP_DEFAULT : Nat := 0x0001

def V4L2_SEL_TGT_CROP_BOUNDS : Nat := 0x0002

def V4L2_SEL_TGT_NATIVE_SIZE : Nat := 0x0003

/-- Native/active array constants of src/gmax4002.c. -/
def GMAX4002_NATIVE_WIDTH : Nat := 2048

def GMAX4002_NATIVE_HEIGHT : Nat := 1218

def GMAX4002_PIXEL_ARRAY_LEFT : Nat := 0

def GMAX4002_PIXEL_ARRAY_TOP : Nat := 18

def GMAX4002_PIXEL_ARRAY_WIDTH : Nat := 2048

def GMAX4002_PIXEL_ARRAY_HEIGHT : Nat := 1200

/-- Embedding of gmax4002_get_selection: storedCrop is the active crop kept
in the framework subdev state; none stands for -EINVAL. -/
def gmax4002_get_selection (storedCrop : Rect) (target : Nat) : Option Rect :=
  if target = V4L2_SEL_TGT_NATIVE_SIZE then
    some ⟨0, 0, GMAX4002_NATIVE_WIDTH, GMAX4002_NATIVE_HEIGHT⟩
  else if target = V4L2_SEL_TGT_CROP_BOUNDS ∨ target = V4L2_SEL_TGT_CROP_DEFAULT then
    some ⟨GMAX4002_PIXEL_ARRAY_LEFT, GMAX4002_PIXEL_ARRAY_TOP,
          GMAX4002_PIXEL_ARRAY_WIDTH, GMAX4002_PIXEL_ARRAY_HEIGHT⟩
  else if target = V4L2_SEL_TGT_CROP then
    some storedCrop
  else
    none

/-- Observable actions of the power sequencer collaborators. -/
inductive PwrAct where
  | railsOn
  | railsOff
  | clkOn
  | clkOff
  | resetRelease
  | settleDelay
deriving DecidableEq, Repr

/-- Embedding of gmax4002_power_on as a trace of collaborator actions:
regRes and clkRes are the results of regulator_bulk_enable and
clk_prepare_enable.  A failed rail enable returns at once; a failed clock
enable first disables the rails; reset release and the settle delay run
only after both succeeded. -/
def gmax4002_power_on (regRes clkRes : Int) : List PwrAct × Int :=
  if regRes ≠ 0 then
    ([PwrAct.railsOn], regRes)
  else if clkRes ≠ 0 then
    ([PwrAct.railsOn, PwrAct.clkOn, PwrAct.railsOff], clkRes)
  else
    ([PwrAct.railsOn, PwrAct.clkOn, PwrAct.resetRelease, PwrAct.settleDelay], 0)

/-- Range metadata of a V4L2 standard control as created by
v4l2_ctrl_new_std(min, max, step, dflt). -/
structure CtrlDesc where
  min : Int
  max : Int
  step : Int
  dflt : Int
deriving DecidableEq, Repr

/-- Fixed rate constants of src/gmax4002.c. -/
def GMAX4002_PIXEL_RATE : Nat := 60000000

def GMAX4002_LINK_FREQ : Nat := 600000000

/-- The link-frequency menu of src/gmax4002.c. -/
def gmax4002_link_freq_menu : List Int := [600000000]

/-- The pixel-rate control as created in gmax4002_init_controls:
v4l2_ctrl_new_std(hdl, ops, V4L2_CID_PIXEL_RATE, 1, GMAX4002_PIXEL_RATE, 1, 1),
that is min 1, max 60000000, step 1, default 1. -/
def pixel_rate_ctrl : CtrlDesc := ⟨1, 60000000, 1, 1⟩

/-- Modelled from the framework contract: a control reports its default as
its current value until it is changed; the driver never updates the
pixel-rate control after creation and the core marks V4L2_CID_PIXEL_RATE
read-only, so the reported pixel rate is the created default, for every
external clock rate xclk (which gmax4002_probe reads but never uses). -/
def gmax4002_reported_pixel_rate (_xclk : Nat) : Int := pixel_rate_ctrl.dflt

/-- The reported link frequency: entry 0 of the link-frequency menu (the
menu control is created with maximum index 0 and default index 0), for
every external clock rate xclk. -/
def gmax4002_reported_link_freq (_xclk : Nat) : Int := gmax4002_link_freq_menu.getD 0 0

/-- Length of the embedded common register table. -/
theorem mode_common_regs_length : mode_common_regs.length = 470 := by decide

/-- Successful busWrite, unfolded. -/
theorem busWrite_ok (res : Nat → Int) (b : Bus) (w : RegWrite)
    (h : res b.attempts = 0) :
    busWrite res b w =
      ({ regs := fun a => if a = w.addr then w.val else b.regs a,
         attempts := b.attempts + 1,
         trace := b.trace ++ [w] }, 0) := by
  simp [busWrite, h]

/-- Failing busWrite, unfolded. -/
theorem busWrite_fail (res : Nat → Int) (b : Bus) (w : RegWrite)
    (h : res b.attempts ≠ 0) :
    busWrite res b w = ({ b with attempts := b.attempts + 1 }, res b.attempts) := by
  simp [busWrite, h]

/-- A chained cci write is skipped when a previous operation failed. -/
theorem cciWriteErr_skip (res : Nat → Int) (b : Bus) (a v : Nat) (e : Int)
    (he : e ≠ 0) : cciWriteErr res b a v e = (b, e) := by
  simp [cciWriteErr, he]

/-- A chained update_bits is skipped when a previous operation failed. -/
theorem cciUpdateBitsErr_skip (res : Nat → Int) (b : Bus) (a m v : Nat) (e : Int)
    (he : e ≠ 0) : cciUpdateBitsErr res b a m v e = (b, e) := by
  simp [cciUpdateBitsErr, he]

/-- An update_bits whose read succeeds but whose write-back fails returns
the write error and leaves the register file and trace unchanged. -/
theorem cciUpdateBitsErr_writeFail (res : Nat → Int) (b : Bus) (a m v : Nat)
    (h0 : res b.attempts = 0) (h1 : res (b.attempts + 1) ≠ 0) :
    cciUpdateBitsErr res b a m v 0 =
      ({ b with attempts := b.attempts + 2 }, res (b.attempts + 1)) := by
  simp [cciUpdateBitsErr, busRead, busWrite, h0, h1]

/-- Applying a register list over a bus where every attempt succeeds
returns success, makes one attempt per write, and appends the whole list
to the trace. -/
theorem cci_multi_ok (res : Nat → Int) :
    ∀ (l : List RegWrite) (b : Bus),
      (∀ i, i < l.length → res (b.attempts + i) = 0) →
      (cci_multi_reg_write res b l).2 = 0 ∧
      (cci_multi_reg_write res b l).1.attempts = b.attempts + l.length ∧
      (cci_multi_reg_write res b l).1.trace = b.trace ++ l := by
  intro l
  induction l with
  | nil => intro b h; simp [cci_multi_reg_write]
  | cons w ws ih =>
    intro b h
    have h0 : res b.attempts = 0 := by simpa using h 0 (by simp)
    have hrec := ih { regs := fun a => if a = w.addr then w.val else b.regs a,
                      attempts := b.attempts + 1,
                      trace := b.trace ++ [w] }
      (by intro i hi
          have h2 := h (i + 1) (by simp; omega)
          have e : b.attempts + (i + 1) = b.attempts + 1 + i := by omega
          rw [e] at h2
          exact h2)
    simp only [cci_multi_reg_write, busWrite_ok res b w h0]
    simp only [ne_eq, not_true_eq_false, if_false]
    refine ⟨hrec.1, ?_, ?_⟩
    · rw [hrec.2.1]
      simp [List.length_cons]
      omega
    · rw [hrec.2.2]
      simp [List.append_assoc]

/-- Applying a register list over a bus whose attempts succeed up to the
one for index k, which fails: the error of attempt k is returned, exactly
the first k writes are issued (and kept), and no later write is attempted. -/
theorem cci_multi_fail (res : Nat → Int) :
    ∀ (l : List RegWrite) (k : Nat) (b : Bus),
      k < l.length →
      (∀ i, i < k → res (b.attempts + i) = 0) →
      res (b.attempts + k) ≠ 0 →
      (cci_multi_reg_write res b l).2 = res (b.attempts + k) ∧
      (cci_multi_reg_write res b l).1.attempts = b.attempts + k + 1 ∧
      (cci_multi_reg_write res b l).1.trace = b.trace ++ l.take k := by
  intro l
  induction l with
  | nil => intro k b hk; simp at hk
  | cons w ws ih =>
    intro k b hk hok hfail
    match k with
    | 0 =>
      have hf : res b.attempts ≠ 0 := by simpa using hfail
      simp only [cci_multi_reg_write, busWrite_fail res b w hf]
      simp [hf]
    | Nat.succ k =>
      have h0 : res b.attempts = 0 := by simpa using hok 0 (Nat.succ_pos k)
      have e : b.attempts + (k + 1) = b.attempts + 1 + k := by omega
      have hrec := ih k { regs := fun a => if a = w.addr then w.val else b.regs a,
                          attempts := b.attempts + 1,
                          trace := b.trace ++ [w] }
        (by simpa using Nat.lt_of_succ_lt_succ hk)
        (by intro i hi
            have h2 := hok (i + 1) (Nat.succ_lt_succ hi)
            have e2 : b.attempts + (i + 1) = b.attempts + 1 + i := by omega
            rw [e2] at h2
            exact h2)
        (by rw [e] at hfail; exact hfail)
      simp only [cci_multi_reg_write, busWrite_ok res b w h0]
      simp only [ne_eq, not_true_eq_false, if_false]
      refine ⟨?_, ?_, ?_⟩
      · rw [hrec.1, ← e]
      · rw [hrec.2.1]
        simp
        try omega
      · rw [hrec.2.2]
        simp [List.append_assoc]

/-- Bus writes always make exactly one attempt. -/
theorem busWrite_attempts (res : Nat → Int) (b : Bus) (w : RegWrite) :
    (busWrite res b w).1.attempts = b.attempts + 1 := by
  by_cases h : res b.attempts = 0
  · rw [busWrite_ok res b w h]
  · rw [busWrite_fail res b w h]

/-- C3: gmax4002_get_format_code returns every code of the allow-list
unchanged and maps every code outside the allow-list to the first
(canonical default) entry 0x300f; its result is always a member of the
allow-list and it is idempotent. -/
theorem get_format_code_allowlist_default_idempotent (x : Nat) :
    (x ∈ codes → gmax4002_get_format_code x = x) ∧
    (x ∉ codes → gmax4002_get_format_code x = 0x300f) ∧
    gmax4002_get_format_code x ∈ codes ∧
    gmax4002_get_format_code (gmax4002_get_format_code x) = gmax4002_get_format_code x := by
  by_cases hx : x ∈ codes
  · have hx2 : x = 0x300f ∨ x = 0x300a ∨ x = 0x300e ∨ x = 0x3007 := by
      simpa [codes] using hx
    rcases hx2 with h | h | h | h <;> subst h <;>
      exact ⟨fun _ => by decide, fun hn => absurd hx hn, by decide, by decide⟩
  · have hfind : codes.find? (fun c => c = x) = none := by
      rw [List.find?_eq_none]
      intro c hc
      simp only [decide_eq_true_eq]
      intro h
      exact hx (h ▸ hc)
    have hx3 : gmax4002_get_format_code x = 0x300f := by
      unfold gmax4002_get_format_code
      rw [hfind]
      decide
    refine ⟨fun h => absurd h hx, fun _ => hx3, ?_, ?_⟩
    · rw [hx3]; decide
    · rw [hx3]; decide

/-- Witness for C3: a listed code is returned unchanged and an unlisted
code degrades to the canonical default. -/
theorem get_format_code_allowlist_default_idempotent_witness :
    ((0x300a : Nat) ∈ codes ∧ gmax4002_get_format_code 0x300a = 0x300a) ∧
    ((0x1234 : Nat) ∉ codes ∧ gmax4002_get_format_code 0x1234 = 0x300f) :=
  ⟨⟨by decide, (get_format_code_allowlist_default_idempotent 0x300a).1 (by decide)⟩,
   ⟨by decide, (get_format_code_allowlist_default_idempotent 0x1234).2.1 (by decide)⟩⟩

/-- C6: gmax4002_get_selection returns the native rectangle for
NATIVE_SIZE, the declared array crop for CROP_BOUNDS and CROP_DEFAULT, the
stored active crop for CROP, and none (-EINVAL) for every other target,
for every session state. -/
theorem get_selection_targets (storedCrop : Rect) (t : Nat) :
    gmax4002_get_selection storedCrop V4L2_SEL_TGT_NATIVE_SIZE = some ⟨0, 0, 2048, 1218⟩ ∧
    gmax4002_get_selection storedCrop V4L2_SEL_TGT_CROP_BOUNDS = some ⟨0, 18, 2048, 1200⟩ ∧
    gmax4002_get_selection storedCrop V4L2_SEL_TGT_CROP_DEFAULT = some ⟨0, 18, 2048, 1200⟩ ∧
    gmax4002_get_selection storedCrop V4L2_SEL_TGT_CROP = some storedCrop ∧
    (t ≠ V4L2_SEL_TGT_CROP → t ≠ V4L2_SEL_TGT_CROP_DEFAULT → t ≠ V4L2_SEL_TGT_CROP_BOUNDS →
      t ≠ V4L2_SEL_TGT_NATIVE_SIZE → gmax4002_get_selection storedCrop t = none) := by
  refine ⟨rfl, rfl, rfl, rfl, fun h0 h1 h2 h3 => ?_⟩
  simp only [V4L2_SEL_TGT_CROP, V4L2_SEL_TGT_CROP_DEFAULT, V4L2_SEL_TGT_CROP_BOUNDS,
             V4L2_SEL_TGT_NATIVE_SIZE] at h0 h1 h2 h3
  simp [gmax4002_get_selection, V4L2_SEL_TGT_CROP, V4L2_SEL_TGT_CROP_DEFAULT,
        V4L2_SEL_TGT_CROP_BOUNDS, V4L2_SEL_TGT_NATIVE_SIZE, h0, h1, h2, h3]

/-- Witness for C6: a concrete crop and the invalid target 7. -/
theorem get_selection_targets_witness :
    gmax4002_get_selection ⟨1, 2, 3, 4⟩ V4L2_SEL_TGT_NATIVE_SIZE = some ⟨0, 0, 2048, 1218⟩ ∧
    gmax4002_get_selection ⟨1, 2, 3, 4⟩ V4L2_SEL_TGT_CROP = some ⟨1, 2, 3, 4⟩ ∧
    gmax4002_get_selection ⟨1, 2, 3, 4⟩ 7 = none :=
  ⟨(get_selection_targets ⟨1, 2, 3, 4⟩ 7).1,
   (get_selection_targets ⟨1, 2, 3, 4⟩ 7).2.2.2.1,
   (get_selection_targets ⟨1, 2, 3, 4⟩ 7).2.2.2.2
     (by decide) (by decide) (by decide) (by decide)⟩

/-- C7: gmax4002_power_on rolls back in reverse order on failure — a rail
failure returns without touching clock or reset, a clock failure disables
the already-enabled rails before returning, and reset release plus the
settle delay run only after both rails and clock succeeded. -/
theorem power_on_rollback (r c : Int) :
    (r ≠ 0 → gmax4002_power_on r c = ([PwrAct.railsOn], r) ∧
      PwrAct.clkOn ∉ (gmax4002_power_on r c).1 ∧
      PwrAct.resetRelease ∉ (gmax4002_power_on r c).1) ∧
    (r = 0 → c ≠ 0 →
      gmax4002_power_on r c = ([PwrAct.railsOn, PwrAct.clkOn, PwrAct.railsOff], c)) ∧
    (r = 0 → c = 0 →
      gmax4002_power_on r c =
        ([PwrAct.railsOn, PwrAct.clkOn, PwrAct.resetRelease, PwrAct.settleDelay], 0)) := by
  refine ⟨fun hr => ⟨?_, ?_, ?_⟩, fun hr hc => ?_, fun hr hc => ?_⟩ <;>
    simp [gmax4002_power_on, hr, *]

/-- Witness for C7: concrete error codes for each branch. -/
theorem power_on_rollback_witness :
    gmax4002_power_on (-5) 0 = ([PwrAct.railsOn], -5) ∧
    gmax4002_power_on 0 (-7) = ([PwrAct.railsOn, PwrAct.clkOn, PwrAct.railsOff], -7) ∧
    gmax4002_power_on 0 0 =
      ([PwrAct.railsOn, PwrAct.clkOn, PwrAct.resetRelease, PwrAct.settleDelay], 0) :=
  ⟨((power_on_rollback (-5) 0).1 (by norm_num)).1,
   (power_on_rollback 0 (-7)).2.1 rfl (by norm_num),
   (power_on_rollback 0 0).2.2 rfl rfl⟩

/-- C8: with the device not powered (pm_runtime_get_if_active false),
gmax4002_set_ctrl performs no bus transaction, leaves the bus untouched
and returns success, for every control id and value. -/
theorem set_ctrl_unpowered_noop (res : Nat → Int) (b : Bus) (id v : Nat) :
    gmax4002_set_ctrl res false b id v = (b, 0) := by
  simp [gmax4002_set_ctrl]

/-- Counterexample for C9: the reported pixel-rate control value is its
created default 1, not 60000000, at the concrete external clock rate
24000000. -/
theorem reported_pixel_rate_not_sixty_mhz :
    gmax4002_reported_pixel_rate 24000000 = 1 ∧
    gmax4002_reported_pixel_rate 24000000 ≠ 60000000 := by
  constructor <;> decide

/-- C9 (amended): the pixel-rate control is created with maximum 60000000
but reports the value 1, the link frequency reported is 600000000, and
both reported values are independent of the external clock rate. -/
theorem reported_rates_constant (r r2 : Nat) :
    gmax4002_reported_pixel_rate r = 1 ∧
    pixel_rate_ctrl.max = 60000000 ∧
    gmax4002_reported_link_freq r = 600000000 ∧
    gmax4002_reported_pixel_rate r = gmax4002_reported_pixel_rate r2 ∧
    gmax4002_reported_link_freq r = gmax4002_reported_link_freq r2 :=
  ⟨rfl, rfl, rfl, rfl, rfl⟩

/-- C10: the media-bus code enumeration exposes exactly one entry — index
0 resolves to the first allow-list entry 0x300f (SRGGB10), every index at
or above 1 is rejected — although the code table itself has four entries,
because the entry count is the table size divided by 4. -/
theorem enum_mbus_code_single_entry (i : Nat) :
    codes.length = 4 ∧
    codes.length / 4 = 1 ∧
    gmax4002_enum_mbus_code 0 = some 0x300f ∧
    (1 ≤ i → gmax4002_enum_mbus_code i = none) := by
  refine ⟨by decide, by decide, by decide, fun hi => ?_⟩
  simp [gmax4002_enum_mbus_code, codes]
  omega

/-- Witness for C10: index 1 is rejected. -/
theorem enum_mbus_code_single_entry_witness :
    (1 : Nat) ≤ 1 ∧ gmax4002_enum_mbus_code 1 = none :=
  ⟨le_refl 1, (enum_mbus_code_single_entry 1).2.2.2 (le_refl 1)⟩

/-- C1 (code_bug evidence): vblank, hblank and brightness writes are
accepted with no bus effect in every power state, but an exposure write
while powered falls through the missing break into the analog-gain case
and issues one bus write of the exposure value to the analog-gain
register, contradicting the comments in the driver itself that exposure does
nothing. -/
theorem set_ctrl_noop_controls_and_exposure_fallthrough :
    (∀ (res : Nat → Int) (p : Bool) (b : Bus) (v : Nat),
        gmax4002_set_ctrl res p b V4L2_CID_VBLANK v = (b, 0) ∧
        gmax4002_set_ctrl res p b V4L2_CID_HBLANK v = (b, 0) ∧
        gmax4002_set_ctrl res p b V4L2_CID_BRIGHTNESS v = (b, 0)) ∧
    (gmax4002_set_ctrl (fun _ => 0) true initBus V4L2_CID_EXPOSURE 1000).1.trace
        = [⟨GMAX4002_REG_ANALOG_GAIN, 1000⟩] ∧
    (gmax4002_set_ctrl (fun _ => 0) true initBus V4L2_CID_EXPOSURE 1000).1.attempts = 1 := by
  refine ⟨fun res p b v => ?_, by decide, by decide⟩
  cases p <;>
    refine ⟨?_, ?_, ?_⟩ <;>
      simp [gmax4002_set_ctrl, V4L2_CID_VBLANK, V4L2_CID_HBLANK, V4L2_CID_BRIGHTNESS,
            V4L2_CID_EXPOSURE, V4L2_CID_ANALOGUE_GAIN, V4L2_CID_VFLIP, V4L2_CID_HFLIP]

/-- C4: a flip write while streaming is rejected with Locked (-16) before
reaching the bus, because a successful enable leaves both flip lock flags
set and disable clears them; a flip write while powered and not locked
makes exactly one bus transaction, writing the flip register. -/
theorem flip_lock_streaming (res : Nat → Int) (pm : Int) (setup : Bus → Bus × Int)
    (st st2 : DriverState) (rU : Int) (v : Nat) :
    ((gmax4002_enable_streams res pm setup st).2 = 0 →
        (gmax4002_enable_streams res pm setup st).1.vflipGrabbed = true ∧
        (gmax4002_enable_streams res pm setup st).1.hflipGrabbed = true) ∧
    ((gmax4002_disable_streams rU st2).1.vflipGrabbed = false ∧
     (gmax4002_disable_streams rU st2).1.hflipGrabbed = false) ∧
    (st2.vflipGrabbed = true → set_control res st2 true V4L2_CID_VFLIP v = (st2, -16)) ∧
    (st2.hflipGrabbed = true → set_control res st2 true V4L2_CID_HFLIP v = (st2, -16)) ∧
    (st2.vflipGrabbed = false →
        (set_control res st2 true V4L2_CID_VFLIP v).1.bus.attempts = st2.bus.attempts + 1 ∧
        (res st2.bus.attempts = 0 →
          (set_control res st2 true V4L2_CID_VFLIP v).1.bus.trace
            = st2.bus.trace ++ [⟨GMAX4002_REG_FLIP_V, v⟩])) ∧
    (st2.hflipGrabbed = false →
        (set_control res st2 true V4L2_CID_HFLIP v).1.bus.attempts = st2.bus.attempts + 1 ∧
        (res st2.bus.attempts = 0 →
          (set_control res st2 true V4L2_CID_HFLIP v).1.bus.trace
            = st2.bus.trace ++ [⟨GMAX4002_REG_FLIP_H, v⟩])) := by
  refine ⟨?_, ?_, ?_, ?_, ?_, ?_⟩
  · intro h
    simp only [gmax4002_enable_streams] at h ⊢
    split_ifs at h ⊢ with h1 h2 h3
    · simp at h; omega
    · simp at h; exact absurd h h2
    · simp at h; exact absurd h h3
    · simp
  · constructor <;> simp [gmax4002_disable_streams]
  · intro h
    simp [set_control, h, V4L2_CID_VFLIP, V4L2_CID_HFLIP]
  · intro h
    simp [set_control, h, V4L2_CID_VFLIP, V4L2_CID_HFLIP]
  · intro h
    refine ⟨?_, fun hres => ?_⟩
    · simp [set_control, h, V4L2_CID_VFLIP, V4L2_CID_HFLIP, gmax4002_set_ctrl,
            V4L2_CID_EXPOSURE, V4L2_CID_ANALOGUE_GAIN, V4L2_CID_VBLANK, V4L2_CID_HBLANK,
            busWrite_attempts]
    · simp [set_control, h, V4L2_CID_VFLIP, V4L2_CID_HFLIP, gmax4002_set_ctrl,
            V4L2_CID_EXPOSURE, V4L2_CID_ANALOGUE_GAIN, V4L2_CID_VBLANK, V4L2_CID_HBLANK,
            busWrite_ok res st2.bus ⟨GMAX4002_REG_FLIP_V, v⟩ hres]
  · intro h
    refine ⟨?_, fun hres => ?_⟩
    · simp [set_control, h, V4L2_CID_VFLIP, V4L2_CID_HFLIP, gmax4002_set_ctrl,
            V4L2_CID_EXPOSURE, V4L2_CID_ANALOGUE_GAIN, V4L2_CID_VBLANK, V4L2_CID_HBLANK,
            busWrite_attempts]
    · simp [set_control, h, V4L2_CID_VFLIP, V4L2_CID_HFLIP, gmax4002_set_ctrl,
            V4L2_CID_EXPOSURE, V4L2_CID_ANALOGUE_GAIN, V4L2_CID_VBLANK, V4L2_CID_HBLANK,
            busWrite_ok res st2.bus ⟨GMAX4002_REG_FLIP_H, v⟩ hres]

/-- Witness for C4: with both locks set a vflip write is rejected with
-16; with the locks clear a powered vflip write lands on the flip
register; disable clears the locks; a fault-free enable ends with both
locks set. -/
theorem flip_lock_streaming_witness :
    set_control (fun _ => 0) ⟨initBus, 1, true, true⟩ true V4L2_CID_VFLIP 1
      = (⟨initBus, 1, true, true⟩, -16) ∧
    (set_control (fun _ => 0) ⟨initBus, 1, false, false⟩ true V4L2_CID_VFLIP 1).1.bus.trace
      = initBus.trace ++ [⟨GMAX4002_REG_FLIP_V, 1⟩] ∧
    (gmax4002_disable_streams 0 ⟨initBus, 1, true, true⟩).1.vflipGrabbed = false ∧
    ((gmax4002_enable_streams (fun _ => 0) 0 (fun b => (b, 0)) ⟨initBus, 0, false, false⟩).1.vflipGrabbed = true ∧
     (gmax4002_enable_streams (fun _ => 0) 0 (fun b => (b, 0)) ⟨initBus, 0, false, false⟩).1.hflipGrabbed = true) :=
  ⟨(flip_lock_streaming (fun _ => 0) 0 (fun b => (b, 0)) ⟨initBus, 1, true, true⟩
      ⟨initBus, 1, true, true⟩ 0 1).2.2.1 rfl,
   ((flip_lock_streaming (fun _ => 0) 0 (fun b => (b, 0)) ⟨initBus, 1, false, false⟩
      ⟨initBus, 1, false, false⟩ 0 1).2.2.2.2.1 rfl).2 rfl,
   ((flip_lock_streaming (fun _ => 0) 0 (fun b => (b, 0)) ⟨initBus, 1, true, true⟩
      ⟨initBus, 1, true, true⟩ 0 1).2.1).1,
   (flip_lock_streaming (fun _ => 0) 0 (fun b => (b, 0)) ⟨initBus, 0, false, false⟩
      ⟨initBus, 0, false, false⟩ 0 1).1 (by decide)⟩

/-- C5: when the write at 0-based index k of the common register table
fails during enable, exactly the first k writes were issued (kept, not
rolled back), the writes after index k are never attempted, the error is
returned, and the session ends idle: power released (usage count back to
its old value) and flips unlocked. -/
theorem enable_table_fail_stops (res : Nat → Int) (u : Nat) (k : Nat)
    (hk : k < mode_common_regs.length)
    (hok : ∀ i, i < k → res i = 0)
    (hfail : res k ≠ 0) :
    (gmax4002_enable_streams res 0 (fun b => (b, 0)) ⟨initBus, u, false, false⟩).2 = res k ∧
    (gmax4002_enable_streams res 0 (fun b => (b, 0)) ⟨initBus, u, false, false⟩).1.bus.trace
      = mode_common_regs.take k ∧
    (gmax4002_enable_streams res 0 (fun b => (b, 0)) ⟨initBus, u, false, false⟩).1.bus.attempts
      = k + 1 ∧
    (gmax4002_enable_streams res 0 (fun b => (b, 0)) ⟨initBus, u, false, false⟩).1.pmUsage = u ∧
    (gmax4002_enable_streams res 0 (fun b => (b, 0)) ⟨initBus, u, false, false⟩).1.vflipGrabbed
      = false ∧
    (gmax4002_enable_streams res 0 (fun b => (b, 0)) ⟨initBus, u, false, false⟩).1.hflipGrabbed
      = false := by
  obtain ⟨hm1, hm2, hm3⟩ := cci_multi_fail res mode_common_regs k initBus hk
    (by intro i hi; simpa [initBus] using hok i hi)
    (by simpa [initBus] using hfail)
  rw [show initBus.attempts = 0 from rfl, Nat.zero_add] at hm1 hm2
  rw [show initBus.trace = [] from rfl, List.nil_append] at hm3
  simp only [gmax4002_enable_streams]
  simp [hm1, hm2, hm3, hfail]

/-- Witness for C5: the bus fails at write index 3; the first three table
writes are issued, the error is returned, and power is released. -/
theorem enable_table_fail_stops_witness :
    (gmax4002_enable_streams (fun n => if n = 3 then (-5 : Int) else 0) 0 (fun b => (b, 0))
        ⟨initBus, 7, false, false⟩).2 = -5 ∧
    (gmax4002_enable_streams (fun n => if n = 3 then (-5 : Int) else 0) 0 (fun b => (b, 0))
        ⟨initBus, 7, false, false⟩).1.bus.trace = mode_common_regs.take 3 ∧
    (gmax4002_enable_streams (fun n => if n = 3 then (-5 : Int) else 0) 0 (fun b => (b, 0))
        ⟨initBus, 7, false, false⟩).1.pmUsage = 7 := by
  have h := enable_table_fail_stops (fun n => if n = 3 then (-5 : Int) else 0) 7 3
    (by rw [mode_common_regs_length]; omega)
    (by intro i hi; have h3 : i ≠ 3 := by omega
        simp [h3])
    (by simp)
  exact ⟨by rw [h.1]; simp, h.2.1, h.2.2.2.1⟩

/-- C2 (code_bug evidence): with every bus attempt of the common table and
the first clock-stable read succeeding, the clock-stable write-back
failing, and the control-setup pass succeeding, enable returns 0 (success)
and keeps the runtime-PM reference, instead of releasing power and
returning the bus error: the error accumulated across the chained
cci_update_bits/cci_write calls is overwritten unread by the result of the
control-setup call. -/
theorem enable_masked_write_error_discarded (res : Nat → Int) (u : Nat)
    (hok : ∀ i, i < 471 → res i = 0)
    (hfail : res 471 ≠ 0) :
    (gmax4002_enable_streams res 0 (fun b => (b, 0)) ⟨initBus, u, false, false⟩).2 = 0 ∧
    (gmax4002_enable_streams res 0 (fun b => (b, 0)) ⟨initBus, u, false, false⟩).1.pmUsage
      = u + 1 := by
  obtain ⟨hm1, hm2, hm3⟩ := cci_multi_ok res mode_common_regs initBus
    (by intro i hi
        have h2 : i < 471 := by rw [mode_common_regs_length] at hi; omega
        simpa [initBus] using hok i h2)
  rw [show initBus.attempts = 0 from rfl, Nat.zero_add, mode_common_regs_length] at hm2
  have hq1 := cciUpdateBitsErr_writeFail res (cci_multi_reg_write res initBus mode_common_regs).1
      0x2E00 0x01 0x01 (by rw [hm2]; exact hok 470 (by omega)) (by rw [hm2]; exact hfail)
  have hr471 : res ((cci_multi_reg_write res initBus mode_common_regs).1.attempts + 1) ≠ 0 := by
    rw [hm2]; exact hfail
  simp only [gmax4002_enable_streams]
  simp [hm1, hq1, hr471, cciWriteErr_skip, cciUpdateBitsErr_skip]

/-- Witness for C2: the oracle failing exactly at attempt 471 (the
clock-stable write-back) with a fault-free table; enable reports success
and the usage count stays raised. -/
theorem enable_masked_write_error_discarded_witness :
    (gmax4002_enable_streams (fun n => if n = 471 then (-5 : Int) else 0) 0 (fun b => (b, 0))
        ⟨initBus, 0, false, false⟩).2 = 0 ∧
    (gmax4002_enable_streams (fun n => if n = 471 then (-5 : Int) else 0) 0 (fun b => (b, 0))
        ⟨initBus, 0, false, false⟩).1.pmUsage = 1 :=
  enable_masked_write_error_discarded (fun n => if n = 471 then (-5 : Int) else 0) 0
    (by intro i hi; have h3 : i ≠ 471 := by omega
        simp [h3]) (by simp)
